import Mathlib

/-!
Shallow embedding of the LabSyncOura health-analytics core
(`health_lp.py` and `report_generator.py`).

Numbers are modelled as exact rationals (`ℚ`); dates as integers
(`ℤ`, ordinal day numbers — every `datetime` the program handles is a
midnight date and only comparison and day-difference are used).
Each Python method that mutates `self` is translated in state-passing
style: it takes the model and returns the updated model (paired with the
Python return value where there is one).
-/

/-- `HealthMetric` from `health_lp.py`: a named value with an acceptable
range, a category and the derived flag state. -/
structure HealthMetric where
  name : String
  value : ℚ
  lower_threshold : ℚ
  upper_threshold : ℚ
  category : String
  is_flagged : Bool
deriving DecidableEq, Repr

/-- `HealthMetric.check_flag`: recompute the flag
(`value < lower_threshold or value > upper_threshold`) and store it on
the metric. The Python method mutates the metric and returns the flag;
here it returns the updated metric. -/
def HealthMetric.check_flag (m : HealthMetric) : HealthMetric :=
  { m with is_flagged := decide (m.value < m.lower_threshold ∨ m.value > m.upper_threshold) }

/-- `SleepData` from `health_lp.py`: one day of sleep data. -/
structure SleepData where
  date : ℤ
  sleep_duration_hours : ℚ
  sleep_quality_score : ℚ
  sleep_efficiency : ℚ
deriving DecidableEq, Repr

/-- The `HealthLP` model state: target sleep hours, the metric store and
the sleep history. -/
structure HealthLP where
  target_sleep_hours : ℚ
  metrics : List HealthMetric
  sleep_history : List SleepData
deriving DecidableEq, Repr

/-- `HealthLP.add_metric`: build the metric, evaluate its flag via
`check_flag`, append it to the store, return it. -/
def HealthLP.add_metric (lp : HealthLP) (name : String) (value lower_threshold upper_threshold : ℚ)
    (category : String) : HealthLP × HealthMetric :=
  let metric : HealthMetric :=
    HealthMetric.check_flag
      { name := name, value := value, lower_threshold := lower_threshold,
        upper_threshold := upper_threshold, category := category, is_flagged := false }
  ({ lp with metrics := lp.metrics ++ [metric] }, metric)

/-- Comparison used by the Python `self.sleep_history.sort(key=lambda x: x.date)`. -/
def SleepData.dateLE (a b : SleepData) : Prop := a.date ≤ b.date

instance : DecidableRel SleepData.dateLE := fun a b => inferInstanceAs (Decidable (a.date ≤ b.date))

instance : IsTotal SleepData SleepData.dateLE := ⟨fun a b => le_total a.date b.date⟩

instance : IsTrans SleepData SleepData.dateLE := ⟨fun _ _ _ h h' => le_trans h h'⟩

/-- `HealthLP.add_sleep_data`: append a `SleepData` record then re-sort the
whole history ascending by date (Python uses a stable sort; a stable
insertion sort is used here). -/
def HealthLP.add_sleep_data (lp : HealthLP) (date : ℤ)
    (sleep_duration_hours sleep_quality_score sleep_efficiency : ℚ) : HealthLP :=
  let sleep_data : SleepData :=
    { date := date, sleep_duration_hours := sleep_duration_hours,
      sleep_quality_score := sleep_quality_score, sleep_efficiency := sleep_efficiency }
  { lp with
    sleep_history := List.insertionSort SleepData.dateLE (lp.sleep_history ++ [sleep_data]) }

/-- `HealthLP.calculate_sleep_debt`: filter the history to
`start_date <= date <= end_date`, then accumulate
`target_sleep_hours - sleep_duration_hours` over records where that
deficit is positive. A pure query (no `self` field is assigned). -/
def HealthLP.calculate_sleep_debt (lp : HealthLP) (start_date end_date : ℤ) : ℚ :=
  let period_sleep :=
    lp.sleep_history.filter (fun s => decide (start_date ≤ s.date ∧ s.date ≤ end_date))
  period_sleep.foldl
    (fun total_debt sleep_data =>
      let deficit := lp.target_sleep_hours - sleep_data.sleep_duration_hours
      if deficit > 0 then total_debt + deficit else total_debt)
    0

/-- `HealthLP.get_sleep_debt_metric`: wrap `calculate_sleep_debt` as a
metric named "Sleep Debt", category "Sleep", lower threshold 0 and upper
threshold `max_acceptable_debt` (the Python default is 0.99), flag
evaluated by `check_flag`. A pure query on the model. -/
def HealthLP.get_sleep_debt_metric (lp : HealthLP) (start_date end_date : ℤ)
    (max_acceptable_debt : ℚ) : HealthMetric :=
  let sleep_debt := lp.calculate_sleep_debt start_date end_date
  HealthMetric.check_flag
    { name := "Sleep Debt", value := sleep_debt, lower_threshold := 0,
      upper_threshold := max_acceptable_debt, category := "Sleep", is_flagged := false }

/-- The Python call `self.lp_model.get_sleep_debt_metric(...)` viewed in
state-passing style: the method assigns no `self` field, so the model
component of the result is the input model unchanged. -/
def HealthLP.get_sleep_debt_metric_call (lp : HealthLP) (start_date end_date : ℤ)
    (max_acceptable_debt : ℚ) : HealthLP × HealthMetric :=
  (lp, lp.get_sleep_debt_metric start_date end_date max_acceptable_debt)

/-- One step of `HealthLP.evaluate_all_metrics`: append a flagged metric to
its category group, creating the group at the end on first sight
(Python dicts preserve key insertion order). -/
def addToCategory (acc : List (String × List HealthMetric)) (m : HealthMetric) :
    List (String × List HealthMetric) :=
  if acc.any (fun p => p.1 == m.category) then
    acc.map (fun p => if p.1 == m.category then (p.1, p.2 ++ [m]) else p)
  else
    acc ++ [(m.category, [m])]

/-- `HealthLP.evaluate_all_metrics`: one pass over the store in insertion
order collecting flagged metrics grouped by category. -/
def HealthLP.evaluate_all_metrics (lp : HealthLP) : List (String × List HealthMetric) :=
  lp.metrics.foldl (fun acc m => if m.is_flagged then addToCategory acc m else acc) []

/-- `HealthLP.get_total_flagged_count`: number of flagged metrics. -/
def HealthLP.get_total_flagged_count (lp : HealthLP) : ℕ :=
  (lp.metrics.filter (fun m => m.is_flagged)).length

/-- The category weight table of `optimize_health_score`, with the 0.1
default for unrecognized categories. -/
def category_weight (category : String) : ℚ :=
  if category = "Sleep" then 3/10
  else if category = "Cardiovascular" then 3/10
  else if category = "Activity" then 4/10
  else 1/10

/-- The clamped normalized value `clamp((value - lower)/(upper - lower), 0, 1)`
computed by `optimize_health_score` in its non-degenerate branch. -/
def normalized_value (m : HealthMetric) : ℚ :=
  max 0 (min 1 ((m.value - m.lower_threshold) / (m.upper_threshold - m.lower_threshold)))

/-- The per-metric score of the loop body of `optimize_health_score`:
in the non-degenerate range case, flagged metrics collapse to 0.3 / 0.7
around a clamped-normalized value of 0.5 and unflagged metrics score the
clamped normalized value; in the degenerate case the score is 1.0
unflagged and 0.5 flagged. -/
def metric_score (m : HealthMetric) : ℚ :=
  if m.upper_threshold > m.lower_threshold then
    if m.is_flagged then
      if normalized_value m < 1/2 then 3/10 else 7/10
    else
      normalized_value m
  else
    if m.is_flagged then 1/2 else 1

/-- `HealthLP.optimize_health_score`: 100.0 on an empty store; otherwise
the weight-normalized sum of per-metric scores scaled to 0–100, guarded
by 100.0 when the accumulated weight is zero. -/
def HealthLP.optimize_health_score (lp : HealthLP) : ℚ :=
  if lp.metrics = [] then 100
  else
    let total_score := (lp.metrics.map (fun m => metric_score m * category_weight m.category)).sum
    let total_weight := (lp.metrics.map (fun m => category_weight m.category)).sum
    if total_weight = 0 then 100
    else (total_score / total_weight) * 100

/-- `HealthLP.reset`: clear metrics and sleep history. -/
def HealthLP.reset (lp : HealthLP) : HealthLP :=
  { lp with metrics := [], sleep_history := [] }

/-- The reference-period block of a report: start, end and inclusive day
count, present only when both reference dates are given. -/
structure ReferencePeriod where
  start : ℤ
  stop : ℤ
  days : ℤ
deriving DecidableEq, Repr

/-- The report dictionary built by `ReportGenerator.generate_report`. -/
structure Report where
  patient_email : String
  report_date : ℤ
  period_start : ℤ
  period_end : ℤ
  period_days : ℤ
  reference_period : Option ReferencePeriod
  total_flagged : ℕ
  flagged_by_category : List (String × List HealthMetric)
  health_score : ℚ
  sleep_debt_value : ℚ
  sleep_debt_is_flagged : Bool
  sleep_debt_target : ℚ
deriving DecidableEq, Repr

/-- The "Sleep Debt" upsert inlined in `generate_report`: find the index of
the first metric named "Sleep Debt"; replace it in place if found, else
append the new metric. -/
def upsertSleepDebt (metrics : List HealthMetric) (sleep_debt_metric : HealthMetric) :
    List HealthMetric :=
  match metrics.findIdx? (fun m => m.name == "Sleep Debt") with
  | some i => metrics.set i sleep_debt_metric
  | none => metrics ++ [sleep_debt_metric]

/-- `ReportGenerator.generate_report` in state-passing style: returns the
mutated `HealthLP` model together with the report dictionary. The
sleep-debt metric is computed with the Python default
`max_acceptable_debt = 0.99`, upserted into the store, and the flagged
summary and health score are computed after the upsert. -/
def generate_report (lp : HealthLP) (patient_email : String)
    (report_date period_start period_end : ℤ)
    (reference_start reference_end : Option ℤ) : HealthLP × Report :=
  let period_days : ℤ := (period_end - period_start) + 1
  let sleep_debt_metric := lp.get_sleep_debt_metric period_start period_end (99/100)
  let lp' : HealthLP := { lp with metrics := upsertSleepDebt lp.metrics sleep_debt_metric }
  let flagged_by_category := lp'.evaluate_all_metrics
  let total_flagged := lp'.get_total_flagged_count
  let reference_info : Option ReferencePeriod :=
    match reference_start, reference_end with
    | some rs, some re => some { start := rs, stop := re, days := (re - rs) + 1 }
    | _, _ => none
  (lp',
    { patient_email := patient_email
      report_date := report_date
      period_start := period_start
      period_end := period_end
      period_days := period_days
      reference_period := reference_info
      total_flagged := total_flagged
      flagged_by_category := flagged_by_category
      health_score := lp'.optimize_health_score
      sleep_debt_value := sleep_debt_metric.value
      sleep_debt_is_flagged := sleep_debt_metric.is_flagged
      sleep_debt_target := lp.target_sleep_hours })

/-! ### Helper lemmas -/

/-- A metric's stored flag agrees with the threshold test on its own fields. -/
def MetricFlagOK (m : HealthMetric) : Prop :=
  m.is_flagged = decide (m.value < m.lower_threshold ∨ m.value > m.upper_threshold)

/-- The derived-flag invariant of the metric store. -/
def FlagInvariant (lp : HealthLP) : Prop :=
  ∀ m ∈ lp.metrics, MetricFlagOK m

/-- The spec's formula for sleep debt (§4.2): the sum, over the records in
the inclusive date range, of `max 0 (target_sleep_hours - duration_hours)`. -/
def sleepDebtSpec (lp : HealthLP) (start_date end_date : ℤ) : ℚ :=
  ((lp.sleep_history.filter (fun s => decide (start_date ≤ s.date ∧ s.date ≤ end_date))).map
    (fun r => max 0 (lp.target_sleep_hours - r.sleep_duration_hours))).sum

/-- A fresh model with the default target of 8 hours per night. -/
def emptyLP : HealthLP := { target_sleep_hours := 8, metrics := [], sleep_history := [] }

/-- The seven-night 7.857-hours scenario of `main.py` (dates 1..7,
quality alternating 70/80, efficiency 85). -/
def sleepWeekLP : HealthLP :=
  ((((((emptyLP.add_sleep_data 1 (7857/1000) 70 85).add_sleep_data 2 (7857/1000) 80
    85).add_sleep_data 3 (7857/1000) 70 85).add_sleep_data 4 (7857/1000) 80
    85).add_sleep_data 5 (7857/1000) 70 85).add_sleep_data 6 (7857/1000) 80
    85).add_sleep_data 7 (7857/1000) 70 85

/-- A model with a single night of 7 hours against the 8-hour target:
exactly one hour of sleep debt. -/
def oneHourDebtLP : HealthLP := emptyLP.add_sleep_data 1 7 70 85

/-- A metric with an inverted range, added through `add_metric`:
value 1/2 against thresholds lower = 1, upper = 0. -/
def invertedRangeMetric : HealthMetric :=
  (emptyLP.add_metric "Inverted" (1/2) 1 0 "Activity").2

/-- The "Steps" metric of the spec's scenario: value 8500 against the
range [10000, 20000], category "Activity". -/
def stepsMetric : HealthMetric :=
  (emptyLP.add_metric "Steps" 8500 10000 20000 "Activity").2

lemma check_flag_flag_ok (m : HealthMetric) : MetricFlagOK (HealthMetric.check_flag m) := rfl

lemma generate_report_fst (lp : HealthLP) (a : String) (rd ps pe : ℤ) (rs re : Option ℤ) :
    (generate_report lp a rd ps pe rs re).1
      = { lp with metrics := upsertSleepDebt lp.metrics (lp.get_sleep_debt_metric ps pe (99/100)) } :=
  rfl

lemma upsertSleepDebt_cons (m : HealthMetric) (l : List HealthMetric) (x : HealthMetric) :
    upsertSleepDebt (m :: l) x
      = if m.name = "Sleep Debt" then x :: l else m :: upsertSleepDebt l x := by
  by_cases h : m.name = "Sleep Debt"
  · simp [upsertSleepDebt, List.findIdx?_cons, h]
  · have hb : (m.name == "Sleep Debt") = false := by
      simpa using h
    simp only [upsertSleepDebt, List.findIdx?_cons, hb, Bool.false_eq_true, if_false, if_neg h,
      List.findIdx?_succ]
    cases hf : List.findIdx? (fun m => m.name == "Sleep Debt") l with
    | none => simp
    | some j => simp [List.set]

lemma mem_upsertSleepDebt {m x : HealthMetric} {l : List HealthMetric}
    (hm : m ∈ upsertSleepDebt l x) : m ∈ l ∨ m = x := by
  induction l with
  | nil =>
    simp only [upsertSleepDebt, List.findIdx?_nil, List.nil_append, List.mem_singleton] at hm
    exact Or.inr hm
  | cons a l ih =>
    rw [upsertSleepDebt_cons] at hm
    by_cases h : a.name = "Sleep Debt"
    · rw [if_pos h] at hm
      rcases List.mem_cons.mp hm with h1 | h1
      · exact Or.inr h1
      · exact Or.inl (List.mem_cons_of_mem a h1)
    · rw [if_neg h] at hm
      rcases List.mem_cons.mp hm with h1 | h1
      · exact Or.inl (h1 ▸ List.mem_cons_self a l)
      · rcases ih h1 with h2 | h2
        · exact Or.inl (List.mem_cons_of_mem a h2)
        · exact Or.inr h2

lemma countP_upsertSleepDebt (l : List HealthMetric) (x : HealthMetric)
    (hx : x.name = "Sleep Debt") :
    (upsertSleepDebt l x).countP (fun m => m.name == "Sleep Debt")
      = max (l.countP (fun m => m.name == "Sleep Debt")) 1 := by
  induction l with
  | nil => simp [upsertSleepDebt, List.countP_cons, hx]
  | cons a l ih =>
    rw [upsertSleepDebt_cons]
    by_cases h : a.name = "Sleep Debt"
    · rw [if_pos h]
      have hbx : (x.name == "Sleep Debt") = true := by simp [hx]
      have hb : (a.name == "Sleep Debt") = true := by simp [h]
      simp only [List.countP_cons, hbx, hb, if_pos rfl, if_true]
      omega
    · rw [if_neg h]
      have hb : (a.name == "Sleep Debt") = false := by simpa using h
      simp [List.countP_cons, hb, ih]

lemma eq_of_mem_upsertSleepDebt {l : List HealthMetric} {x m : HealthMetric}
    (hcount : l.countP (fun m => m.name == "Sleep Debt") ≤ 1)
    (hm : m ∈ upsertSleepDebt l x) (hname : m.name = "Sleep Debt") : m = x := by
  induction l with
  | nil =>
    simpa [upsertSleepDebt, List.findIdx?_nil] using hm
  | cons a l ih =>
    rw [upsertSleepDebt_cons] at hm
    by_cases h : a.name = "Sleep Debt"
    · rw [if_pos h] at hm
      rcases List.mem_cons.mp hm with h1 | h1
      · exact h1
      · exfalso
        have hb : (a.name == "Sleep Debt") = true := by simp [h]
        have hcc : l.countP (fun m => m.name == "Sleep Debt") + 1 ≤ 1 := by
          simpa [List.countP_cons, hb] using hcount
        have hzero : l.countP (fun m => m.name == "Sleep Debt") = 0 := by omega
        have := List.countP_eq_zero.mp hzero m h1
        simp [hname] at this
    · rw [if_neg h] at hm
      rcases List.mem_cons.mp hm with h1 | h1
      · exact absurd (h1 ▸ hname) h
      · have hcount' : l.countP (fun m => m.name == "Sleep Debt") ≤ 1 := by
          have hb : (a.name == "Sleep Debt") = false := by simpa using h
          simpa [List.countP_cons, hb] using hcount
        exact ih hcount' h1

lemma filter_ne_upsertSleepDebt (l : List HealthMetric) (x : HealthMetric)
    (hx : x.name = "Sleep Debt") :
    (upsertSleepDebt l x).filter (fun m => !(m.name == "Sleep Debt"))
      = l.filter (fun m => !(m.name == "Sleep Debt")) := by
  induction l with
  | nil => simp [upsertSleepDebt, List.findIdx?_nil, hx]
  | cons a l ih =>
    rw [upsertSleepDebt_cons]
    by_cases h : a.name = "Sleep Debt"
    · rw [if_pos h]
      simp [List.filter_cons, h, hx]
    · rw [if_neg h]
      have hb : (a.name == "Sleep Debt") = false := by simpa using h
      simp [List.filter_cons, hb, ih]

lemma upsertSleepDebt_upsertSleepDebt (l : List HealthMetric) (x y : HealthMetric)
    (hx : x.name = "Sleep Debt") :
    upsertSleepDebt (upsertSleepDebt l x) y = upsertSleepDebt l y := by
  induction l with
  | nil =>
    show upsertSleepDebt [x] y = upsertSleepDebt [] y
    rw [upsertSleepDebt_cons, if_pos hx]
    simp [upsertSleepDebt, List.findIdx?_nil]
  | cons a l ih =>
    rw [upsertSleepDebt_cons]
    by_cases h : a.name = "Sleep Debt"
    · rw [if_pos h, upsertSleepDebt_cons, if_pos hx, upsertSleepDebt_cons, if_pos h]
    · rw [if_neg h, upsertSleepDebt_cons, if_neg h, ih, upsertSleepDebt_cons, if_neg h]

lemma foldl_deficit_eq_sum (t : ℚ) (l : List SleepData) (a : ℚ) :
    (l.foldl
      (fun total_debt sleep_data =>
        let deficit := t - sleep_data.sleep_duration_hours
        if deficit > 0 then total_debt + deficit else total_debt)
      a)
      = a + (l.map (fun r => max 0 (t - r.sleep_duration_hours))).sum := by
  induction l generalizing a with
  | nil => simp
  | cons x xs ih =>
    simp only [List.foldl_cons, List.map_cons, List.sum_cons, ih]
    by_cases h : t - x.sleep_duration_hours > 0
    · rw [if_pos h, max_eq_right h.le]
      ring
    · rw [if_neg h, max_eq_left (le_of_not_lt h)]
      ring

lemma sum_max_eq_sum_pos (t : ℚ) (l : List SleepData) :
    (l.map (fun r => max 0 (t - r.sleep_duration_hours))).sum
      = ((l.filter (fun r => decide (r.sleep_duration_hours < t))).map
          (fun r => t - r.sleep_duration_hours)).sum := by
  induction l with
  | nil => simp
  | cons x xs ih =>
    by_cases h : x.sleep_duration_hours < t
    · have hpos : (0 : ℚ) < t - x.sleep_duration_hours := by linarith
      simp [List.filter_cons, h, max_eq_right hpos.le, ih]
    · have hle : t - x.sleep_duration_hours ≤ 0 := by
        have := le_of_not_lt h
        linarith
      simp [List.filter_cons, h, max_eq_left hle, ih]

lemma sum_max_nonneg (t : ℚ) (l : List SleepData) :
    0 ≤ (l.map (fun r => max 0 (t - r.sleep_duration_hours))).sum := by
  apply List.sum_nonneg
  intro x hx
  rcases List.mem_map.mp hx with ⟨r, _, rfl⟩
  exact le_max_left 0 _

lemma category_weight_pos (c : String) : 0 < category_weight c := by
  unfold category_weight
  split
  · norm_num
  · split
    · norm_num
    · split
      · norm_num
      · norm_num

lemma normalized_value_nonneg (m : HealthMetric) : 0 ≤ normalized_value m :=
  le_max_left 0 _

lemma normalized_value_le_one (m : HealthMetric) : normalized_value m ≤ 1 := by
  unfold normalized_value
  exact max_le (by norm_num) (min_le_left 1 _)

lemma metric_score_nonneg (m : HealthMetric) : 0 ≤ metric_score m := by
  unfold metric_score
  split
  · split
    · split
      · norm_num
      · norm_num
    · exact normalized_value_nonneg m
  · split
    · norm_num
    · norm_num

lemma metric_score_le_one (m : HealthMetric) : metric_score m ≤ 1 := by
  unfold metric_score
  split
  · split
    · split
      · norm_num
      · norm_num
    · exact normalized_value_le_one m
  · split
    · norm_num
    · norm_num

lemma get_sleep_debt_metric_metrics_irrel (lp : HealthLP) (M : List HealthMetric)
    (s e : ℤ) (d : ℚ) :
    HealthLP.get_sleep_debt_metric { lp with metrics := M } s e d
      = lp.get_sleep_debt_metric s e d := rfl

lemma generate_report_congr (lpA lpB : HealthLP) (a : String) (rd ps pe : ℤ)
    (rs re : Option ℤ)
    (hsleep : lpA.sleep_history = lpB.sleep_history)
    (htarget : lpA.target_sleep_hours = lpB.target_sleep_hours)
    (hup : upsertSleepDebt lpA.metrics (lpB.get_sleep_debt_metric ps pe (99/100))
      = upsertSleepDebt lpB.metrics (lpB.get_sleep_debt_metric ps pe (99/100))) :
    generate_report lpA a rd ps pe rs re = generate_report lpB a rd ps pe rs re := by
  have hx : lpA.get_sleep_debt_metric ps pe (99/100)
      = lpB.get_sleep_debt_metric ps pe (99/100) := by
    unfold HealthLP.get_sleep_debt_metric HealthLP.calculate_sleep_debt
    rw [hsleep, htarget]
  unfold generate_report
  dsimp only
  rw [hx, hup, htarget, hsleep]

/-! ### Claim theorems -/

/-- C1: after any public operation (`add_metric`, `add_sleep_data`,
`generate_report`'s upsert, or the pure queries), every metric held in
the store satisfies `is_flagged = (value < lower_threshold ∨
value > upper_threshold)`, and so do the metrics the operations return:
the derived flag is never stale. -/
theorem flag_invariant_preserved (lp : HealthLP) (hinv : FlagInvariant lp)
    (n : String) (v lo hi : ℚ) (c : String) (d : ℤ) (dur q eff : ℚ)
    (a : String) (rd ps pe : ℤ) (rs re : Option ℤ) (s e : ℤ) (mad : ℚ) :
    FlagInvariant (lp.add_metric n v lo hi c).1 ∧
    MetricFlagOK (lp.add_metric n v lo hi c).2 ∧
    FlagInvariant (lp.add_sleep_data d dur q eff) ∧
    FlagInvariant (lp.get_sleep_debt_metric_call s e mad).1 ∧
    MetricFlagOK (lp.get_sleep_debt_metric_call s e mad).2 ∧
    FlagInvariant (generate_report lp a rd ps pe rs re).1 := by
  refine ⟨?_, check_flag_flag_ok _, ?_, ?_, check_flag_flag_ok _, ?_⟩
  · intro m hm
    rcases List.mem_append.mp hm with h1 | h1
    · exact hinv m h1
    · rcases List.mem_singleton.mp h1 with rfl
      exact check_flag_flag_ok _
  · intro m hm
    exact hinv m hm
  · intro m hm
    exact hinv m hm
  · intro m hm
    rw [generate_report_fst] at hm
    rcases mem_upsertSleepDebt hm with h1 | h1
    · exact hinv m h1
    · rw [h1]
      exact check_flag_flag_ok _

/-- Witness for C1 at the empty model and concrete operation arguments. -/
theorem flag_invariant_preserved_witness :
    FlagInvariant emptyLP ∧
    (FlagInvariant (emptyLP.add_metric "Steps" 8500 10000 20000 "Activity").1 ∧
      MetricFlagOK (emptyLP.add_metric "Steps" 8500 10000 20000 "Activity").2 ∧
      FlagInvariant (emptyLP.add_sleep_data 1 7 70 85) ∧
      FlagInvariant (emptyLP.get_sleep_debt_metric_call 1 7 (99/100)).1 ∧
      MetricFlagOK (emptyLP.get_sleep_debt_metric_call 1 7 (99/100)).2 ∧
      FlagInvariant (generate_report emptyLP "p" 17 1 7 none none).1) :=
  ⟨fun m hm => absurd hm (List.not_mem_nil m),
   flag_invariant_preserved emptyLP (fun m hm => absurd hm (List.not_mem_nil m))
     "Steps" 8500 10000 20000 "Activity" 1 7 70 85 "p" 17 1 7 none none 1 7 (99/100)⟩

/-- C9: the only mutation `generate_report` makes to the model is the
"Sleep Debt" upsert: the sleep history, the target sleep hours, and the
sub-list of metrics not named "Sleep Debt" (their values, flags and
relative order) are unchanged. -/
theorem generate_report_frame (lp : HealthLP) (a : String) (rd ps pe : ℤ)
    (rs re : Option ℤ) :
    (generate_report lp a rd ps pe rs re).1.sleep_history = lp.sleep_history ∧
    (generate_report lp a rd ps pe rs re).1.target_sleep_hours = lp.target_sleep_hours ∧
    (generate_report lp a rd ps pe rs re).1.metrics.filter (fun m => !(m.name == "Sleep Debt"))
      = lp.metrics.filter (fun m => !(m.name == "Sleep Debt")) := by
  refine ⟨rfl, rfl, ?_⟩
  rw [generate_report_fst]
  exact filter_ne_upsertSleepDebt lp.metrics _ rfl

/-- C8: `get_sleep_debt_metric` is a pure query: it leaves the whole model
unchanged (metric store, sleep history and target), and the freshly built
"Sleep Debt" metric it returns is not inserted into the store. -/
theorem get_sleep_debt_metric_pure (lp : HealthLP) (s e : ℤ) (d : ℚ) :
    (lp.get_sleep_debt_metric_call s e d).1 = lp ∧
    (lp.get_sleep_debt_metric_call s e d).1.metrics = lp.metrics ∧
    (lp.get_sleep_debt_metric_call s e d).1.sleep_history = lp.sleep_history ∧
    (lp.get_sleep_debt_metric_call s e d).1.target_sleep_hours = lp.target_sleep_hours ∧
    (lp.get_sleep_debt_metric_call s e d).2 = lp.get_sleep_debt_metric s e d ∧
    (lp.get_sleep_debt_metric_call s e d).2.name = "Sleep Debt" :=
  ⟨rfl, rfl, rfl, rfl, rfl, rfl⟩

/-- C2: `calculate_sleep_debt` equals the sum, over exactly the stored
records within the inclusive date range, of
`max 0 (target_sleep_hours - duration_hours)`; it is non-negative, only
records with duration below target contribute (each by its positive
deficit), and it is 0 when no record falls in the range. -/
theorem calculate_sleep_debt_spec (lp : HealthLP) (s e : ℤ) :
    lp.calculate_sleep_debt s e = sleepDebtSpec lp s e ∧
    0 ≤ lp.calculate_sleep_debt s e ∧
    lp.calculate_sleep_debt s e =
      (((lp.sleep_history.filter (fun r => decide (s ≤ r.date ∧ r.date ≤ e))).filter
          (fun r => decide (r.sleep_duration_hours < lp.target_sleep_hours))).map
        (fun r => lp.target_sleep_hours - r.sleep_duration_hours)).sum ∧
    (lp.sleep_history.filter (fun r => decide (s ≤ r.date ∧ r.date ≤ e)) = [] →
      lp.calculate_sleep_debt s e = 0) := by
  have hkey : lp.calculate_sleep_debt s e = sleepDebtSpec lp s e := by
    unfold HealthLP.calculate_sleep_debt sleepDebtSpec
    simpa using foldl_deficit_eq_sum lp.target_sleep_hours
      (lp.sleep_history.filter (fun r => decide (s ≤ r.date ∧ r.date ≤ e))) 0
  refine ⟨hkey, ?_, ?_, ?_⟩
  · rw [hkey]
    exact sum_max_nonneg _ _
  · rw [hkey]
    exact sum_max_eq_sum_pos _ _
  · intro hempty
    rw [hkey]
    unfold sleepDebtSpec
    rw [hempty]
    simp

/-- Witness for C2 at a one-record model: a populated range and an empty
range. -/
theorem calculate_sleep_debt_spec_witness :
    oneHourDebtLP.calculate_sleep_debt 1 1 = sleepDebtSpec oneHourDebtLP 1 1 ∧
    0 ≤ oneHourDebtLP.calculate_sleep_debt 1 1 ∧
    oneHourDebtLP.calculate_sleep_debt 10 11 = 0 :=
  ⟨(calculate_sleep_debt_spec oneHourDebtLP 1 1).1,
   (calculate_sleep_debt_spec oneHourDebtLP 1 1).2.1,
   (calculate_sleep_debt_spec oneHourDebtLP 10 11).2.2.2 (by decide)⟩

/-- C3: starting from a store with at most one metric named "Sleep Debt",
`generate_report` leaves exactly one "Sleep Debt" metric, and it carries
the value computed for the requested period; an existing one is replaced
in place at its list position, otherwise the new metric is appended at
the end; a second `generate_report` still leaves exactly one, carrying
the latest computed value. -/
theorem generate_report_upsert_spec (lp : HealthLP)
    (h : lp.metrics.countP (fun m => m.name == "Sleep Debt") ≤ 1)
    (a : String) (rd ps pe : ℤ) (rs re : Option ℤ)
    (a2 : String) (rd2 ps2 pe2 : ℤ) (rs2 re2 : Option ℤ) :
    ((generate_report lp a rd ps pe rs re).1.metrics.countP
        (fun m => m.name == "Sleep Debt")) = 1 ∧
    (∀ m ∈ (generate_report lp a rd ps pe rs re).1.metrics,
        m.name = "Sleep Debt" → m = lp.get_sleep_debt_metric ps pe (99/100)) ∧
    (∀ i, lp.metrics.findIdx? (fun m => m.name == "Sleep Debt") = some i →
        (generate_report lp a rd ps pe rs re).1.metrics
          = lp.metrics.set i (lp.get_sleep_debt_metric ps pe (99/100))) ∧
    (lp.metrics.findIdx? (fun m => m.name == "Sleep Debt") = none →
        (generate_report lp a rd ps pe rs re).1.metrics
          = lp.metrics ++ [lp.get_sleep_debt_metric ps pe (99/100)]) ∧
    ((generate_report (generate_report lp a rd ps pe rs re).1 a2 rd2 ps2 pe2 rs2 re2).1.metrics.countP
        (fun m => m.name == "Sleep Debt")) = 1 ∧
    (∀ m ∈ (generate_report (generate_report lp a rd ps pe rs re).1 a2 rd2 ps2 pe2 rs2 re2).1.metrics,
        m.name = "Sleep Debt" →
          m = (generate_report lp a rd ps pe rs re).1.get_sleep_debt_metric ps2 pe2 (99/100)) := by
  have hcount1 : ((generate_report lp a rd ps pe rs re).1.metrics.countP
      (fun m => m.name == "Sleep Debt")) = 1 := by
    rw [generate_report_fst]
    show (upsertSleepDebt lp.metrics (lp.get_sleep_debt_metric ps pe (99/100))).countP
      (fun m => m.name == "Sleep Debt") = 1
    rw [countP_upsertSleepDebt _ _ rfl]
    omega
  refine ⟨hcount1, ?_, ?_, ?_, ?_, ?_⟩
  · intro m hm hname
    rw [generate_report_fst] at hm
    exact eq_of_mem_upsertSleepDebt h hm hname
  · intro i hi
    rw [generate_report_fst]
    show upsertSleepDebt lp.metrics (lp.get_sleep_debt_metric ps pe (99/100))
      = lp.metrics.set i (lp.get_sleep_debt_metric ps pe (99/100))
    unfold upsertSleepDebt
    rw [hi]
  · intro hi
    rw [generate_report_fst]
    show upsertSleepDebt lp.metrics (lp.get_sleep_debt_metric ps pe (99/100))
      = lp.metrics ++ [lp.get_sleep_debt_metric ps pe (99/100)]
    unfold upsertSleepDebt
    rw [hi]
  · rw [generate_report_fst ((generate_report lp a rd ps pe rs re).1)]
    show (upsertSleepDebt (generate_report lp a rd ps pe rs re).1.metrics
      ((generate_report lp a rd ps pe rs re).1.get_sleep_debt_metric ps2 pe2 (99/100))).countP
        (fun m => m.name == "Sleep Debt") = 1
    rw [countP_upsertSleepDebt _ _ rfl, hcount1]
    omega
  · intro m hm hname
    rw [generate_report_fst ((generate_report lp a rd ps pe rs re).1)] at hm
    exact eq_of_mem_upsertSleepDebt (le_of_eq hcount1) hm hname

/-- Witness for C3 at the empty store: one "Sleep Debt" metric after the
first report and still one after the second. -/
theorem generate_report_upsert_spec_witness :
    emptyLP.metrics.countP (fun m => m.name == "Sleep Debt") ≤ 1 ∧
    (generate_report emptyLP "p" 17 1 7 none none).1.metrics.countP
      (fun m => m.name == "Sleep Debt") = 1 ∧
    (generate_report (generate_report emptyLP "p" 17 1 7 none none).1
        "p" 18 1 7 none none).1.metrics.countP (fun m => m.name == "Sleep Debt") = 1 :=
  ⟨by decide,
   (generate_report_upsert_spec emptyLP (by decide) "p" 17 1 7 none none "p" 18 1 7 none none).1,
   (generate_report_upsert_spec emptyLP (by decide) "p" 17 1 7 none none
      "p" 18 1 7 none none).2.2.2.2.1⟩

/-- C4: `optimize_health_score` always lies in the closed interval
[0, 100], and is exactly 100 on an empty metric store. -/
theorem optimize_health_score_bounds (lp : HealthLP) :
    0 ≤ lp.optimize_health_score ∧ lp.optimize_health_score ≤ 100 ∧
    (lp.metrics = [] → lp.optimize_health_score = 100) := by
  by_cases hnil : lp.metrics = []
  · have h100 : lp.optimize_health_score = 100 := by
      unfold HealthLP.optimize_health_score
      rw [if_pos hnil]
    refine ⟨by rw [h100]; norm_num, by rw [h100], fun _ => h100⟩
  · have hsnn : 0 ≤ (lp.metrics.map (fun m => metric_score m * category_weight m.category)).sum := by
      apply List.sum_nonneg
      intro y hy
      rcases List.mem_map.mp hy with ⟨m, _, rfl⟩
      exact mul_nonneg (metric_score_nonneg m) (category_weight_pos m.category).le
    have hwnn : 0 ≤ (lp.metrics.map (fun m => category_weight m.category)).sum := by
      apply List.sum_nonneg
      intro y hy
      rcases List.mem_map.mp hy with ⟨m, _, rfl⟩
      exact (category_weight_pos m.category).le
    have hsle : (lp.metrics.map (fun m => metric_score m * category_weight m.category)).sum
        ≤ (lp.metrics.map (fun m => category_weight m.category)).sum := by
      apply List.sum_le_sum
      intro m _
      calc metric_score m * category_weight m.category
          ≤ 1 * category_weight m.category :=
            mul_le_mul_of_nonneg_right (metric_score_le_one m) (category_weight_pos m.category).le
        _ = category_weight m.category := one_mul _
    by_cases htw : (lp.metrics.map (fun m => category_weight m.category)).sum = 0
    · have h100 : lp.optimize_health_score = 100 := by
        unfold HealthLP.optimize_health_score
        rw [if_neg hnil]
        simp only []
        rw [if_pos htw]
      exact ⟨by rw [h100]; norm_num, by rw [h100], fun hc => absurd hc hnil⟩
    · have hchar : lp.optimize_health_score
          = ((lp.metrics.map (fun m => metric_score m * category_weight m.category)).sum
              / (lp.metrics.map (fun m => category_weight m.category)).sum) * 100 := by
        unfold HealthLP.optimize_health_score
        rw [if_neg hnil]
        simp only []
        rw [if_neg htw]
      have htwpos : 0 < (lp.metrics.map (fun m => category_weight m.category)).sum :=
        lt_of_le_of_ne hwnn (Ne.symm htw)
      refine ⟨?_, ?_, fun hc => absurd hc hnil⟩
      · rw [hchar]
        exact mul_nonneg (div_nonneg hsnn hwnn) (by norm_num)
      · rw [hchar]
        have hdiv : (lp.metrics.map (fun m => metric_score m * category_weight m.category)).sum
            / (lp.metrics.map (fun m => category_weight m.category)).sum ≤ 1 :=
          (div_le_one htwpos).mpr hsle
        calc ((lp.metrics.map (fun m => metric_score m * category_weight m.category)).sum
              / (lp.metrics.map (fun m => category_weight m.category)).sum) * 100
            ≤ 1 * 100 := mul_le_mul_of_nonneg_right hdiv (by norm_num)
          _ = 100 := one_mul _

/-- Witness for C4 at the empty store: the score is exactly 100. -/
theorem optimize_health_score_bounds_witness :
    0 ≤ emptyLP.optimize_health_score ∧ emptyLP.optimize_health_score ≤ 100 ∧
    emptyLP.optimize_health_score = 100 :=
  ⟨(optimize_health_score_bounds emptyLP).1, (optimize_health_score_bounds emptyLP).2.1,
   (optimize_health_score_bounds emptyLP).2.2 rfl⟩

/-- Counterexample to C5 as stated: the flagged metric with the inverted
range [1, 0] and value 1/2 scores 1/2 in `optimize_health_score`, which
is neither 0.3 nor 0.7 (the degenerate-range branch of the scorer applies
because the coarse collapse only covers
`upper_threshold > lower_threshold`). -/
theorem metric_score_flagged_cex :
    invertedRangeMetric.is_flagged = true ∧
    normalized_value invertedRangeMetric = 1/2 ∧
    metric_score invertedRangeMetric = 1/2 ∧
    ¬(metric_score invertedRangeMetric = 3/10 ∨ metric_score invertedRangeMetric = 7/10) := by
  have hflag : invertedRangeMetric.is_flagged = true := by
    norm_num [invertedRangeMetric, emptyLP, HealthLP.add_metric, HealthMetric.check_flag]
  have hnorm : normalized_value invertedRangeMetric = 1/2 := by
    norm_num [normalized_value, invertedRangeMetric, emptyLP, HealthLP.add_metric,
      HealthMetric.check_flag]
  have hscore : metric_score invertedRangeMetric = 1/2 := by
    norm_num [metric_score, invertedRangeMetric, emptyLP, HealthLP.add_metric,
      HealthMetric.check_flag]
  refine ⟨hflag, hnorm, hscore, ?_⟩
  rw [hscore]
  norm_num

/-- C5 amended: for metrics with `upper_threshold > lower_threshold`, a
flagged metric's per-metric score in `optimize_health_score` is exactly
0.3 (clamped normalized value below 0.5) or exactly 0.7, never a
continuous value, while an unflagged metric scores its continuous
clamped normalized value in [0, 1]. -/
theorem metric_score_flagged_coarse (m : HealthMetric)
    (h : m.lower_threshold < m.upper_threshold) :
    (m.is_flagged = true →
      metric_score m = (if normalized_value m < 1/2 then 3/10 else 7/10) ∧
      (metric_score m = 3/10 ∨ metric_score m = 7/10)) ∧
    (m.is_flagged = false →
      metric_score m = normalized_value m ∧
      0 ≤ metric_score m ∧ metric_score m ≤ 1) := by
  constructor
  · intro hf
    have hs : metric_score m = (if normalized_value m < 1/2 then 3/10 else 7/10) := by
      unfold metric_score
      rw [if_pos h, hf]
      simp
    refine ⟨hs, ?_⟩
    rw [hs]
    split
    · exact Or.inl rfl
    · exact Or.inr rfl
  · intro hf
    have hs : metric_score m = normalized_value m := by
      unfold metric_score
      rw [if_pos h, hf]
      simp
    exact ⟨hs, hs ▸ normalized_value_nonneg m, hs ▸ normalized_value_le_one m⟩

/-- Witness for the amended C5 at the spec's "Steps" scenario: value 8500
in [10000, 20000] is flagged, its clamped normalized value is 0, and its
score is 0.3. -/
theorem metric_score_flagged_coarse_witness :
    stepsMetric.lower_threshold < stepsMetric.upper_threshold ∧
    ((stepsMetric.is_flagged = true →
      metric_score stepsMetric = (if normalized_value stepsMetric < 1/2 then 3/10 else 7/10) ∧
      (metric_score stepsMetric = 3/10 ∨ metric_score stepsMetric = 7/10)) ∧
    (stepsMetric.is_flagged = false →
      metric_score stepsMetric = normalized_value stepsMetric ∧
      0 ≤ metric_score stepsMetric ∧ metric_score stepsMetric ≤ 1)) :=
  ⟨by norm_num [stepsMetric, emptyLP, HealthLP.add_metric, HealthMetric.check_flag],
   metric_score_flagged_coarse stepsMetric
     (by norm_num [stepsMetric, emptyLP, HealthLP.add_metric, HealthMetric.check_flag])⟩

/-- C6: with target 8.0 and seven records of 7.857 hours in range, the
sleep debt is 1.001 ≈ 1.0 hours, which exceeds the 0.99 default
threshold, so the returned "Sleep Debt" metric (category "Sleep", lower
threshold 0) is flagged; in general, a debt of exactly 1.0 hour is
flagged under the 0.99 default. -/
theorem sleep_debt_week_flagged :
    sleepWeekLP.calculate_sleep_debt 1 7 = 1001/1000 ∧
    |sleepWeekLP.calculate_sleep_debt 1 7 - 1| ≤ 1/100 ∧
    (99/100 : ℚ) < sleepWeekLP.calculate_sleep_debt 1 7 ∧
    (sleepWeekLP.get_sleep_debt_metric 1 7 (99/100)).is_flagged = true ∧
    (sleepWeekLP.get_sleep_debt_metric 1 7 (99/100)).category = "Sleep" ∧
    (sleepWeekLP.get_sleep_debt_metric 1 7 (99/100)).lower_threshold = 0 ∧
    ∀ (lp : HealthLP) (s e : ℤ), lp.calculate_sleep_debt s e = 1 →
      (lp.get_sleep_debt_metric s e (99/100)).is_flagged = true := by
  have hdebtval : sleepWeekLP.calculate_sleep_debt 1 7 = 1001/1000 := by
    norm_num [sleepWeekLP, emptyLP, HealthLP.calculate_sleep_debt, HealthLP.add_sleep_data,
      List.insertionSort, List.orderedInsert, SleepData.dateLE]
  have hflag : (sleepWeekLP.get_sleep_debt_metric 1 7 (99/100)).is_flagged = true := by
    show decide (sleepWeekLP.calculate_sleep_debt 1 7 < 0 ∨
      sleepWeekLP.calculate_sleep_debt 1 7 > 99/100) = true
    rw [hdebtval]
    norm_num
  refine ⟨hdebtval, ?_, ?_, hflag, rfl, rfl, ?_⟩
  · rw [hdebtval, abs_le]
    constructor
    · norm_num
    · norm_num
  · rw [hdebtval]
    norm_num
  · intro lp s e hdebt
    show decide (lp.calculate_sleep_debt s e < 0 ∨ lp.calculate_sleep_debt s e > 99/100) = true
    rw [hdebt]
    norm_num

/-- Witness for the general part of C6: a single 7-hour night against the
8-hour target gives exactly 1.0 hour of debt, and the metric is flagged. -/
theorem sleep_debt_week_flagged_witness :
    oneHourDebtLP.calculate_sleep_debt 1 1 = 1 ∧
    (oneHourDebtLP.get_sleep_debt_metric 1 1 (99/100)).is_flagged = true := by
  have h1 : oneHourDebtLP.calculate_sleep_debt 1 1 = 1 := by
    norm_num [oneHourDebtLP, emptyLP, HealthLP.calculate_sleep_debt, HealthLP.add_sleep_data,
      List.insertionSort, List.orderedInsert, SleepData.dateLE]
  exact ⟨h1, sleep_debt_week_flagged.2.2.2.2.2.2 oneHourDebtLP 1 1 h1⟩

/-- C7: after every `add_sleep_data` call the sleep history is sorted
ascending by date (unconditionally — insertion re-sorts); the new record
is kept alongside any record with the same date (the history is a
permutation of the old history plus the new record, and the count of
records at the inserted date grows by one); no other operation touches
the sleep history except `reset`, which leaves it empty and sorted. -/
theorem add_sleep_data_sorted_invariant (lp : HealthLP) (d : ℤ) (dur q eff : ℚ)
    (n : String) (v lo hi : ℚ) (c : String) (a : String) (rd ps pe : ℤ) (rs re : Option ℤ) :
    List.Sorted SleepData.dateLE (lp.add_sleep_data d dur q eff).sleep_history ∧
    (lp.add_sleep_data d dur q eff).sleep_history.Perm
      (lp.sleep_history ++ [(⟨d, dur, q, eff⟩ : SleepData)]) ∧
    (lp.add_sleep_data d dur q eff).sleep_history.countP (fun r => r.date == d)
      = lp.sleep_history.countP (fun r => r.date == d) + 1 ∧
    (lp.add_metric n v lo hi c).1.sleep_history = lp.sleep_history ∧
    (generate_report lp a rd ps pe rs re).1.sleep_history = lp.sleep_history ∧
    List.Sorted SleepData.dateLE (HealthLP.reset lp).sleep_history := by
  refine ⟨List.sorted_insertionSort SleepData.dateLE _,
    List.perm_insertionSort SleepData.dateLE _, ?_, rfl, rfl, List.sorted_nil⟩
  have hperm := List.perm_insertionSort SleepData.dateLE
    (lp.sleep_history ++ [(⟨d, dur, q, eff⟩ : SleepData)])
  show (List.insertionSort SleepData.dateLE
    (lp.sleep_history ++ [(⟨d, dur, q, eff⟩ : SleepData)])).countP (fun r => r.date == d)
    = lp.sleep_history.countP (fun r => r.date == d) + 1
  rw [hperm.countP_eq]
  simp [List.countP_append, List.countP_cons]

/-- C10: `generate_report` is idempotent and deterministic: a second call
on the resulting model with identical arguments returns the same report
and leaves the model in the same state as after the first call. -/
theorem generate_report_idempotent (lp : HealthLP) (a : String) (rd ps pe : ℤ)
    (rs re : Option ℤ) :
    generate_report (generate_report lp a rd ps pe rs re).1 a rd ps pe rs re
      = generate_report lp a rd ps pe rs re := by
  have hup : upsertSleepDebt (generate_report lp a rd ps pe rs re).1.metrics
      (lp.get_sleep_debt_metric ps pe (99/100))
      = upsertSleepDebt lp.metrics (lp.get_sleep_debt_metric ps pe (99/100)) := by
    show upsertSleepDebt (upsertSleepDebt lp.metrics (lp.get_sleep_debt_metric ps pe (99/100)))
      (lp.get_sleep_debt_metric ps pe (99/100))
      = upsertSleepDebt lp.metrics (lp.get_sleep_debt_metric ps pe (99/100))
    exact upsertSleepDebt_upsertSleepDebt _ _ _ rfl
  exact generate_report_congr (generate_report lp a rd ps pe rs re).1 lp a rd ps pe rs re
    rfl rfl hup
